/-
Verification of the query-orchestration core of the Road-Safety-Intervention
chatbot backend.

The Python source is shallowly embedded: dict-shaped rows and filter mappings
become structures with `Option` fields (a `none` field models both an absent
key and a key stored with value `None`, which behave identically under
`dict.get`), Python float scores become `ℚ`, Python `in` substring tests
become an explicit char-list infix check, and code that can raise becomes
`Except Unit`.  External collaborators (the tabular store, the LLM provider,
the cache) are parameters, exactly as the spec treats them (spec sections 5
and 6).  Components of this repository whose files are not present under the
backend sources (the result ranker, the pydantic schemas, the helper
utilities) are modelled from the spec and carry a doc comment saying so.
-/
import Mathlib

/-- Python's `needle in hay` substring containment on strings, as a
contiguous-sublist check on the underlying character lists.  The empty needle
is contained in everything, as in Python. -/
def infixAux (needle : List Char) : List Char → Bool
  | [] => needle.isEmpty
  | c :: rest => needle.isPrefixOf (c :: rest) || infixAux needle rest

/-- `strIn needle hay` models Python `needle in hay` for strings. -/
def strIn (needle hay : String) : Bool :=
  infixAux needle.toList hay.toList

/-- ASCII whitespace, the characters Python's `int` parsing ignores around a
numeral. -/
def isPySpace (c : Char) : Bool :=
  c == ' ' || c == '\t' || c == '\n' || c == '\r'

/-- Strip leading and trailing whitespace from a character list. -/
def trimChars (l : List Char) : List Char :=
  ((l.dropWhile isPySpace).reverse.dropWhile isPySpace).reverse

/-- Accumulate a decimal numeral; `none` on the first non-digit character. -/
def parseDigits (acc : Nat) : List Char → Option Nat
  | [] => some acc
  | c :: rest =>
    if c.isDigit then parseDigits (acc * 10 + (c.toNat - '0'.toNat)) rest else none

/-- Parse an optionally signed decimal numeral; `none` for the empty list, a
bare sign, or any non-digit character. -/
def pyIntChars : List Char → Option Int
  | [] => none
  | '-' :: rest =>
    if rest.isEmpty then none else (parseDigits 0 rest).map (fun n => -(n : Int))
  | '+' :: rest =>
    if rest.isEmpty then none else (parseDigits 0 rest).map (fun n => (n : Int))
  | l => (parseDigits 0 l).map (fun n => (n : Int))

/-- Python `int(v)` applied to a string value: parses an optionally signed
decimal literal (surrounding whitespace tolerated), `none` when the parse
fails (the Python call raises `ValueError` there). -/
def pyInt (v : String) : Option Int :=
  pyIntChars (trimChars v.toList)

/-- Python truthiness of an optional string (`None` and `""` are falsy). -/
def truthyStr : Option String → Bool
  | some s => !s.isEmpty
  | none => false

/-- Python truthiness of an optional list (`None` and `[]` are falsy). -/
def truthyList : Option (List String) → Bool
  | some l => !l.isEmpty
  | none => false

/-- Python truthiness of an optional integer (`None` and `0` are falsy). -/
def truthyInt : Option Int → Bool
  | some n => n != 0
  | none => false

/-- Modelled from the spec: the filter mapping handled by the core.  The
pydantic schema module is not present under the backend sources; section 9 of
the spec fixes its fields as the optional-field record
(category, problem, speed_min, speed_max, irc_code), which is exactly the set
of keys the in-source code reads and writes. -/
structure Filters where
  category : Option (List String) := none
  problem : Option (List String) := none
  speed_min : Option Int := none
  speed_max : Option Int := none
  irc_code : Option String := none
deriving DecidableEq, Repr

/-- Modelled from the spec: the entity bag of section 3 (schemas module absent
from the backend sources); fields follow the JSON keys requested by
`GeminiService.extract_entities` in `gemini_service.py`. -/
structure ExtractedEntities where
  problems : Option (List String) := none
  category : Option String := none
  type : Option String := none
  speed : Option Int := none
  road_type : Option String := none
  environment : Option (List String) := none
  urgency : Option String := none
deriving DecidableEq, Repr

/-- A row returned by the tabular-store collaborator, as consumed by
`StructuredQueryStrategy.search` in `structured_query.py`.  The three
sequence-number spellings are separate optional fields because the Python code
distinguishes the dict keys `"S. No."`, `"S.No."` and `"s_no"`; their values
are kept as strings so that Python `int(...)` conversion failure is
representable. -/
structure Row where
  sNoSpaced : Option String := none
  sNoCompact : Option String := none
  s_no : Option Int := none
  id : Option String := none
  problem : Option String := none
  category : Option String := none
  type : Option String := none
  code : Option String := none
  clause : Option String := none
  data : String := ""
  dimensions : List String := []
  colors : List String := []
  placement_distances : List String := []
deriving DecidableEq, Repr

/-- Modelled from the spec: the catalogued remedy record of section 3 (the
pydantic model module is absent from the backend sources).  Construction from
a normalized row is made total with empty defaults; the only row-dependent
failure the in-source strategy code exhibits is the sequence-number `int(...)`
conversion, which is modelled separately in `normalize_s_no`. -/
structure Intervention where
  id : String := ""
  s_no : Int := 0
  problem : String := ""
  category : String := ""
  type : String := ""
  data : String := ""
  code : Option String := none
  clause : Option String := none
  dimensions : List String := []
  colors : List String := []
  placement_distances : List String := []
deriving DecidableEq, Repr

/-- A scored candidate, per section 3 of the spec and the constructor calls in
`structured_query.py`. -/
structure InterventionResult where
  intervention : Intervention
  confidence : ℚ
  relevance_score : ℚ
  match_reason : Option String := none
deriving DecidableEq, Repr

/-- The tabular-store collaborator interface of spec section 6:
`text_search(query, limit)`, `search_by_filters(..., limit)`, and
`get_all(limit)`, each returning rows. -/
structure DatabaseService where
  text_search : String → Nat → List Row
  search_by_filters : Option (List String) → Option (List String) → Option Int →
    Option Int → Option String → Nat → List Row
  get_all : Nat → List Row

/-- The filter-activity test on line 32 of `structured_query.py`:
`filters and (filters.get("category") or filters.get("problem") or
filters.get("speed_min") or filters.get("speed_max") or
filters.get("irc_code"))`, under Python truthiness. -/
def Filters.anyActive (f : Filters) : Bool :=
  truthyList f.category || truthyList f.problem || truthyInt f.speed_min ||
    truthyInt f.speed_max || truthyStr f.irc_code

/-- The same test lifted to an optional filter mapping (`None` and the empty
dict are both falsy, and a dict whose values are all falsy fails the `or`
chain, so the three cases coincide). -/
def filtersActive : Option Filters → Bool
  | none => false
  | some f => f.anyActive

/-- Membership test `result.get(k) in filters[k]`: a row with an absent key
yields Python `None`, which is never a member of a list of strings. -/
def optMem (v : Option String) (l : Option (List String)) : Bool :=
  match v with
  | some s => (l.getD []).contains s
  | none => false

/-- `StructuredQueryStrategy._calculate_confidence` from `structured_query.py`
lines 92-119: base 0.5; +0.2 when the lowercased stored problem occurs in the
lowercased query; +0.15 each for category and type; +0.1 each for a category
and a problem filter match; capped at 1.0 by `min`. -/
def calculate_confidence (query : String) (result : Row) (filters : Option Filters) : ℚ :=
  let score : ℚ := 0.5
  let query_lower := query.toLower
  let score := if strIn ((result.problem.getD "").toLower) query_lower then score + 0.2 else score
  let score := if strIn ((result.category.getD "").toLower) query_lower then score + 0.15 else score
  let score := if strIn ((result.type.getD "").toLower) query_lower then score + 0.15 else score
  let score :=
    match filters with
    | some f =>
      let score := if truthyList f.category && optMem result.category f.category then score + 0.1 else score
      let score := if truthyList f.problem && optMem result.problem f.problem then score + 0.1 else score
      score
    | none => score
  min score 1

/-- `StructuredQueryStrategy._get_match_reason` from `structured_query.py`
lines 121-136 (its row argument is unused by the Python body, so it is not a
parameter here). -/
def get_match_reason (filters : Option Filters) : String :=
  let reasons : List String :=
    match filters with
    | some f =>
      (if truthyList f.category then ["Category filter match"] else []) ++
      (if truthyList f.problem then ["Problem type filter match"] else []) ++
      (if truthyInt f.speed_min || truthyInt f.speed_max then ["Speed range match"] else [])
    | none => []
  let reasons := if reasons.isEmpty then ["Text search match"] else reasons
  String.intercalate ", " reasons

/-- Python `s.split('_')[-1]`: the suffix after the last underscore (the whole
string when there is none, the empty string after a trailing underscore). -/
def lastUnderscorePart (s : String) : String :=
  String.mk ((s.toList.reverse.takeWhile (fun c => c != '_')).reverse)

/-- The column-name normalization of `structured_query.py` lines 57-69.  The
`"S. No."` and `"S.No."` branches call bare `int(...)`, which raises on a
malformed value (`Except.error`); the absent-key branch derives the number
from the trailing `id` component inside `try/except`, coercing failures
to 0. -/
def normalize_s_no (r : Row) : Except Unit Row :=
  match r.sNoSpaced with
  | some v =>
    match pyInt v with
    | some n => .ok { r with sNoSpaced := none, s_no := some n }
    | none => .error ()
  | none =>
    match r.sNoCompact with
    | some v =>
      match pyInt v with
      | some n => .ok { r with sNoCompact := none, s_no := some n }
      | none => .error ()
    | none =>
      match r.s_no with
      | some _ => .ok r
      | none =>
        match r.id with
        | some i => .ok { r with s_no := some ((pyInt (lastUnderscorePart i)).getD 0) }
        | none => .ok { r with s_no := some 0 }

/-- Intervention construction `Intervention(**normalized_result)` on a
normalized row. -/
def interventionOfRow (r : Row) : Intervention :=
  { id := r.id.getD "", s_no := r.s_no.getD 0, problem := r.problem.getD "",
    category := r.category.getD "", type := r.type.getD "", data := r.data,
    code := r.code, clause := r.clause, dimensions := r.dimensions,
    colors := r.colors, placement_distances := r.placement_distances }

/-- One loop iteration of `structured_query.py` lines 56-83 after successful
normalization: score the row and wrap it as an `InterventionResult` (the
Python code computes the reason from the un-normalized row, but the reason
function ignores its row argument, so only the filters matter). -/
def resultOfRow (query : String) (filters : Option Filters) (nr : Row) : InterventionResult :=
  let confidence := calculate_confidence query nr filters
  { intervention := interventionOfRow nr, confidence := confidence,
    relevance_score := confidence, match_reason := some (get_match_reason filters) }

/-- The row-processing loop of `structured_query.py` lines 56-83, restricted
to its only fallible step: normalize every row in order, aborting at the first
raising row (the raised exception escapes the loop and is caught by the
strategy's outer handler). -/
def normalize_all : List Row → Except Unit (List Row)
  | [] => .ok []
  | r :: rest =>
    match normalize_s_no r with
    | .error e => .error e
    | .ok nr =>
      match normalize_all rest with
      | .error e => .error e
      | .ok nrs => .ok (nr :: nrs)

/-- `StructuredQueryStrategy.search` from `structured_query.py` lines 22-90:
text-search baseline, optional filtered refinement that replaces the baseline
only when non-empty, top-N fallback when still empty, then the scoring loop;
any raised exception is converted to `[]` by the outer handler. -/
def StructuredQueryStrategy.search (db : DatabaseService) (query : String)
    (filters : Option Filters) (max_results : Nat) : List InterventionResult :=
  let results := db.text_search query (max_results * 2)
  let results :=
    match filters with
    | some f =>
      if f.anyActive then
        let filtered_results := db.search_by_filters f.category f.problem f.speed_min
          f.speed_max f.irc_code (max_results * 2)
        if !filtered_results.isEmpty then filtered_results else results
      else results
    | none => results
  let results := if results.isEmpty then db.get_all max_results else results
  match normalize_all results with
  | .ok normalized => normalized.map (resultOfRow query filters)
  | .error _ => []

/-- Outcome of one provider call: the response text (`response.text`) or a
raised provider/transport error. -/
inductive ProviderOutcome where
  | ok (text : String)
  | error
deriving DecidableEq, Repr

/-- The markdown code-fence stripping of `gemini_service.py` lines 100-104:
when the (already stripped) text starts with three backticks, keep the second
chunk of the backtick-fence split, drop a leading `json` tag, and strip
again. -/
def strip_code_fence (text : String) : String :=
  if text.startsWith "```" then
    let t := (text.splitOn "```").getD 1 ""
    let t := if t.startsWith "json" then t.drop 4 else t
    t.trim
  else text

/-- `GeminiService.extract_entities` from `gemini_service.py` lines 76-122,
with the provider call and the JSON-decode-plus-validation step as
parameters: a provider error or a failed parse is absorbed into the all-empty
entity bag by the handlers on lines 116-122; the function is total, so the
call never raises. -/
def GeminiService.extract_entities (parse_json : String → Option ExtractedEntities)
    (outcome : ProviderOutcome) : ExtractedEntities :=
  match outcome with
  | .error => {}
  | .ok raw =>
    let text := strip_code_fence raw.trim
    match parse_json text with
    | some entities => entities
    | none => {}

/-- The token counters of `GeminiService` (`gemini_service.py` lines 23-25). -/
structure TokenState where
  total_input_tokens : Nat := 0
  total_output_tokens : Nat := 0
deriving DecidableEq, Repr

/-- One public call on the service, tagged with the usage metadata its
response carried (`none` when the response had no `usage_metadata` or the
call took an error path before the tracking lines). -/
inductive GeminiCall where
  | extract_entities (usage : Option (Nat × Nat))
  | synthesize_recommendation (usage : Option (Nat × Nat))
  | answer_followup (usage : Option (Nat × Nat))
  | generate_embeddings
  | embed_query
  | get_token_usage
  | reset_token_counter
deriving DecidableEq, Repr

/-- The tracking statements guarded by `hasattr(response, "usage_metadata")`
(`gemini_service.py` lines 110-113, 168-170, 195-197). -/
def track_usage (s : TokenState) : Option (Nat × Nat) → TokenState
  | some (i, o) =>
    { total_input_tokens := s.total_input_tokens + i,
      total_output_tokens := s.total_output_tokens + o }
  | none => s

/-- Effect of one service call on the token counters: the three generation
calls accumulate their usage, the embedding calls and the snapshot leave the
counters alone, and `reset_token_counter` (lines 209-212) zeroes them. -/
def GeminiService.step (s : TokenState) : GeminiCall → TokenState
  | .extract_entities u => track_usage s u
  | .synthesize_recommendation u => track_usage s u
  | .answer_followup u => track_usage s u
  | .generate_embeddings => s
  | .embed_query => s
  | .get_token_usage => s
  | .reset_token_counter => { total_input_tokens := 0, total_output_tokens := 0 }

/-- The counter state after a sequence of service calls. -/
def GeminiService.run (s : TokenState) : List GeminiCall → TokenState
  | [] => s
  | c :: cs => GeminiService.run (GeminiService.step s c) cs

/-- `GeminiService.get_token_usage` (lines 205-207): the snapshot
`{"input": total_input_tokens, "output": total_output_tokens}`. -/
def GeminiService.get_token_usage (s : TokenState) : Nat × Nat :=
  (s.total_input_tokens, s.total_output_tokens)

/-- The usage a single call adds to the counters. -/
def call_usage : GeminiCall → Nat × Nat
  | .extract_entities (some (i, o)) => (i, o)
  | .synthesize_recommendation (some (i, o)) => (i, o)
  | .answer_followup (some (i, o)) => (i, o)
  | _ => (0, 0)

/-- Componentwise sum of the usage of a call sequence. -/
def total_usage : List GeminiCall → Nat × Nat
  | [] => (0, 0)
  | c :: cs => ((call_usage c).1 + (total_usage cs).1, (call_usage c).2 + (total_usage cs).2)

/-- Modelled from the spec: `core/ranker.py` (`ResultRanker.apply_boost`) is
not present under the backend sources.  Spec section 4.5 pass 1: re-score
confidence upward for candidates whose stored fields textually overlap the
query; modelled as a fixed capped bonus when the lowercased problem, category
or type occurs in the lowercased query.  Only its length-preserving map shape
matters to the claims proved here. -/
def ResultRanker.apply_boost (results : List InterventionResult) (query : String) :
    List InterventionResult :=
  results.map (fun r =>
    if strIn r.intervention.problem.toLower query.toLower ||
        strIn r.intervention.category.toLower query.toLower ||
        strIn r.intervention.type.toLower query.toLower then
      { r with confidence := min (r.confidence + 0.1) 1 }
    else r)

/-- One fold step of the deduplication pass: reconcile a candidate against the
accumulator, keeping the higher-confidence instance of its intervention id. -/
def dedupInsert (acc : List InterventionResult) (r : InterventionResult) :
    List InterventionResult :=
  if acc.any (fun x => x.intervention.id == r.intervention.id) then
    acc.map (fun x =>
      if x.intervention.id == r.intervention.id && decide (x.confidence < r.confidence)
      then r else x)
  else acc ++ [r]

/-- Modelled from the spec: `core/ranker.py` (`ResultRanker.deduplicate`) is
not present under the backend sources.  Spec section 4.5 pass 2: collapse
entries sharing an intervention id, keeping the highest-confidence
instance. -/
def ResultRanker.deduplicate (results : List InterventionResult) : List InterventionResult :=
  results.foldl dedupInsert []

/-- Modelled from the spec: `core/ranker.py` (`ResultRanker.rank_by_confidence`)
is not present under the backend sources.  Spec section 4.5 pass 3: stable
sort descending by confidence (merge sort keeps the original relative order
of ties). -/
def ResultRanker.rank_by_confidence (results : List InterventionResult) :
    List InterventionResult :=
  results.mergeSort (fun a b => decide (b.confidence ≤ a.confidence))

/-- Modelled from the spec: `utils/helpers.py` is absent from the backend
sources and spec section 4.6 treats cost estimation as a pure external helper
utility outside the core; its exact output is irrelevant to every claim. -/
def estimate_cost (problem category : String) : String :=
  "Cost estimate for " ++ problem ++ " / " ++ category

/-- Modelled from the spec: external helper utility (see `estimate_cost`). -/
def estimate_installation_time (category problem : String) : String :=
  "Installation time for " ++ category ++ " / " ++ problem

/-- Modelled from the spec: external helper utility (see `estimate_cost`). -/
def extract_maintenance_info (data : String) : String :=
  "Maintenance: " ++ data.take 50

/-- Modelled from the spec: the `Specifications` record of section 3 (schemas
module absent), fields as populated by the orchestrator. -/
structure Specifications where
  dimensions : Option String := none
  colors : Option (List String) := none
  placement : Option String := none
deriving DecidableEq, Repr

/-- Modelled from the spec: the `IRCReference` record of section 3. -/
structure IRCReference where
  code : Option String := none
  clause : Option String := none
  excerpt : String := ""
deriving DecidableEq, Repr

/-- Modelled from the spec: the outward-facing enriched record of section 3,
fields as populated by `QueryOrchestrator._convert_to_recommendations`. -/
structure InterventionRecommendation where
  id : String
  title : String
  confidence : ℚ
  problem : String
  category : String
  type : String
  specifications : Specifications
  explanation : String
  irc_reference : IRCReference
  cost_estimate : String
  installation_time : String
  maintenance : String
  raw_data : String
deriving DecidableEq, Repr

/-- Modelled from the spec: the response metadata of sections 3 and 6 (schemas
module absent); `gemini_tokens` is the (input, output) pair of the token
snapshot. -/
structure SearchMetadata where
  search_strategy : String
  total_results : Nat
  query_time_ms : Nat
  gemini_tokens : Nat × Nat
  entities_extracted : ExtractedEntities
deriving DecidableEq, Repr

/-- Modelled from the spec: the whole-response record of section 3. -/
structure SearchResponse where
  query : String
  results : List InterventionRecommendation
  synthesis : String
  metadata : SearchMetadata
deriving DecidableEq, Repr

/-- Modelled from the spec: the search request (schemas module absent), with
the fields the orchestrator reads: query, optional filters, optional strategy
name, and max_results. -/
structure SearchRequest where
  query : String
  filters : Option Filters := none
  strategy : Option String := none
  max_results : Nat := 10
deriving DecidableEq, Repr

/-- `QueryOrchestrator._merge_filters` from `orchestrator.py` lines 144-161:
entity values fill filter fields under Python truthiness tests, and a truthy
extracted speed with falsy speed bounds expands to the window
`[max 0 (speed - 20), speed + 20]`. -/
def merge_filters (filters : Filters) (entities : ExtractedEntities) : Filters :=
  let filters :=
    if truthyStr entities.category && !truthyList filters.category then
      { filters with category := some [entities.category.getD ""] }
    else filters
  let filters :=
    if truthyList entities.problems && !truthyList filters.problem then
      { filters with problem := entities.problems }
    else filters
  let filters :=
    if truthyInt entities.speed && !truthyInt filters.speed_min &&
        !truthyInt filters.speed_max then
      { filters with speed_min := some (max 0 (entities.speed.getD 0 - 20)),
                     speed_max := some (entities.speed.getD 0 + 20) }
    else filters
  filters

/-- A retrieval strategy as the orchestrator sees it: a name and a search
capability (spec section 6). -/
structure Strategy where
  name : String
  search : String → Filters → Nat → List InterventionResult

/-- The collaborators injected into `QueryOrchestrator`: the three strategies,
the entity-extraction and synthesis capabilities of the Gemini service, and
the ambient values read while assembling metadata. -/
structure OrchestratorEnv where
  rag_strategy : Strategy
  structured_strategy : Strategy
  hybrid_strategy : Strategy
  extract : String → ExtractedEntities
  synthesize : String → List Intervention → ExtractedEntities → String
  query_time_ms : Nat := 0
  gemini_tokens : Nat × Nat := (0, 0)

/-- `QueryOrchestrator._select_strategy` from `orchestrator.py` lines 132-142:
"rag", "structured" and "hybrid" select their strategies; anything else,
including an absent name, defaults to hybrid. -/
def QueryOrchestrator.select_strategy (env : OrchestratorEnv)
    (strategy_name : Option String) : Strategy :=
  if strategy_name == some "rag" then env.rag_strategy
  else if strategy_name == some "structured" then env.structured_strategy
  else if strategy_name == some "hybrid" then env.hybrid_strategy
  else env.hybrid_strategy

/-- `QueryOrchestrator._convert_to_recommendations` from `orchestrator.py`
lines 163-201, one record per result in order. -/
def convert_to_recommendations (results : List InterventionResult) :
    List InterventionRecommendation :=
  results.map (fun result =>
    let intervention := result.intervention
    let specs : Specifications :=
      { dimensions := if intervention.dimensions.isEmpty then none
          else some (String.intercalate ", " intervention.dimensions),
        colors := if intervention.colors.isEmpty then none else some intervention.colors,
        placement := if intervention.placement_distances.isEmpty then none
          else some (String.intercalate ", " intervention.placement_distances) }
    let irc_ref : IRCReference :=
      { code := intervention.code, clause := intervention.clause,
        excerpt := intervention.data.take 200 ++ "..." }
    { id := intervention.id,
      title := intervention.problem ++ " - " ++ intervention.type,
      confidence := result.confidence,
      problem := intervention.problem,
      category := intervention.category,
      type := intervention.type,
      specifications := specs,
      explanation :=
        match result.match_reason with
        | some s => if s.isEmpty then "Matched based on query relevance" else s
        | none => "Matched based on query relevance",
      irc_reference := irc_ref,
      cost_estimate := estimate_cost intervention.problem intervention.category,
      installation_time := estimate_installation_time intervention.category intervention.problem,
      maintenance := extract_maintenance_info intervention.data,
      raw_data := intervention.data })

/-- The fixed apologetic synthesis used when no results remain
(`orchestrator.py` line 208). -/
def apologeticSynthesis : String :=
  "No interventions found matching your query. Please try rephrasing or broadening your search."

/-- `QueryOrchestrator._generate_synthesis` from `orchestrator.py` lines
203-216, instrumented with the context handed to the synthesis capability:
the second component is `none` exactly when the capability was not invoked,
and otherwise carries the intervention records of the top three results that
were passed as context. -/
def generate_synthesis (synthesize : String → List Intervention → ExtractedEntities → String)
    (query : String) (results : List InterventionResult) (entities : ExtractedEntities) :
    String × Option (List Intervention) :=
  if results.isEmpty then
    (apologeticSynthesis, none)
  else
    let interventions_data := (results.take 3).map (fun result => result.intervention)
    (synthesize query interventions_data entities, some interventions_data)

/-- Counts of the observable side effects of one `process_query` call. -/
structure Effects where
  entity_extractions : Nat
  strategy_searches : Nat
  synthesis_calls : Nat
  cache_writes : Nat
deriving DecidableEq, Repr

/-- `QueryOrchestrator.process_query` from `orchestrator.py` lines 37-130,
instrumented with effect counts.  The cache lookup outcome for the request's
(query, filters) fingerprint is the `cached_response` parameter (the cache
collaborator and the fingerprint helper live outside the backend sources); a
hit returns the stored response with zero effects (lines 46-58), a miss runs
the pipeline: extraction, filter merge, strategy selection, retrieval with
`max_results * 2`, the three ranker passes, truncation, recommendation
construction, synthesis, metadata assembly, and one cache write. -/
def QueryOrchestrator.process_query (env : OrchestratorEnv)
    (cached_response : Option SearchResponse) (request : SearchRequest) :
    SearchResponse × Effects :=
  match cached_response with
  | some cached => (cached, ⟨0, 0, 0, 0⟩)
  | none =>
    let entities := env.extract request.query
    let filters := merge_filters (request.filters.getD {}) entities
    let strategy := QueryOrchestrator.select_strategy env request.strategy
    let results := strategy.search request.query filters (request.max_results * 2)
    let results := ResultRanker.apply_boost results request.query
    let results := ResultRanker.deduplicate results
    let results := ResultRanker.rank_by_confidence results
    let results := results.take request.max_results
    let recommendations := convert_to_recommendations results
    let synth := generate_synthesis env.synthesize request.query results entities
    let metadata : SearchMetadata :=
      { search_strategy := strategy.name,
        total_results := results.length,
        query_time_ms := env.query_time_ms,
        gemini_tokens := env.gemini_tokens,
        entities_extracted := entities }
    let response : SearchResponse :=
      { query := request.query, results := recommendations,
        synthesis := synth.1, metadata := metadata }
    (response, ⟨1, 1, if synth.2.isSome then 1 else 0, 1⟩)

/-- The category-filter bonus condition of `_calculate_confidence`:
`filters.get("category") and result.get("category") in filters["category"]`. -/
def filterCategoryMatch (r : Row) : Option Filters → Bool
  | some f => truthyList f.category && optMem r.category f.category
  | none => false

/-- The problem-filter bonus condition of `_calculate_confidence`. -/
def filterProblemMatch (r : Row) : Option Filters → Bool
  | some f => truthyList f.problem && optMem r.problem f.problem
  | none => false

theorem calculate_confidence_ge_half (query : String) (result : Row)
    (filters : Option Filters) : (0.5 : ℚ) ≤ calculate_confidence query result filters := by
  rcases filters with _ | f <;>
    simp only [calculate_confidence] <;>
    split_ifs <;>
    norm_num [min_def]

theorem calculate_confidence_le_one (query : String) (result : Row)
    (filters : Option Filters) : calculate_confidence query result filters ≤ 1 := by
  rcases filters with _ | f <;> simp only [calculate_confidence] <;> exact min_le_right _ _

/-- C3: for every candidate row, the confidence is exactly the base 0.5 plus
the additive bonuses 0.2 (problem substring), 0.15 (category substring),
0.15 (type substring), 0.1 (category-filter match) and 0.1 (problem-filter
match), capped at 1.0, and consequently lies in [0, 1]. -/
theorem c3_confidence_formula (query : String) (result : Row) (filters : Option Filters) :
    calculate_confidence query result filters =
      min ((0.5 : ℚ)
        + (if strIn ((result.problem.getD "").toLower) query.toLower then 0.2 else 0)
        + (if strIn ((result.category.getD "").toLower) query.toLower then 0.15 else 0)
        + (if strIn ((result.type.getD "").toLower) query.toLower then 0.15 else 0)
        + (if filterCategoryMatch result filters then 0.1 else 0)
        + (if filterProblemMatch result filters then 0.1 else 0)) 1 ∧
    0 ≤ calculate_confidence query result filters ∧
    calculate_confidence query result filters ≤ 1 := by
  refine ⟨?_, le_trans (by norm_num) (calculate_confidence_ge_half query result filters),
    calculate_confidence_le_one query result filters⟩
  rcases filters with _ | f <;>
    simp only [calculate_confidence, filterCategoryMatch, filterProblemMatch] <;>
    split_ifs <;>
    norm_num <;>
    tauto

/-- C10: every result returned by the structured strategy carries confidence
at least the base score 0.5. -/
theorem c10_confidence_lower_bound (db : DatabaseService) (query : String)
    (filters : Option Filters) (max_results : Nat) (r : InterventionResult)
    (hr : r ∈ StructuredQueryStrategy.search db query filters max_results) :
    (0.5 : ℚ) ≤ r.confidence := by
  simp only [StructuredQueryStrategy.search] at hr
  split at hr
  · rcases List.mem_map.mp hr with ⟨nr, _, rfl⟩
    simpa [resultOfRow] using calculate_confidence_ge_half query nr filters
  · simp at hr

theorem normalize_all_ok (l : List Row)
    (h : ∀ r ∈ l, ∃ nr, normalize_s_no r = .ok nr) :
    ∃ l2, normalize_all l = .ok l2 ∧ l2.length = l.length := by
  induction l with
  | nil => exact ⟨[], rfl, rfl⟩
  | cons r rest ih =>
    obtain ⟨nr, hnr⟩ := h r (List.mem_cons_self _ _)
    obtain ⟨l2, hl2, hlen⟩ := ih (fun a ha => h a (List.mem_cons_of_mem _ ha))
    exact ⟨nr :: l2, by simp [normalize_all, hnr, hl2], by simp [hlen]⟩

/-- C2 (amended): when at least one filter predicate is active, the filtered
search returns zero rows, the text search returns at least one row, and every
text-search row normalizes without raising, the strategy returns exactly the
results built from the text-search rows — never an empty list. -/
theorem c2_filter_never_starves (db : DatabaseService) (query : String) (f : Filters)
    (max_results : Nat)
    (hact : f.anyActive = true)
    (htext : db.text_search query (max_results * 2) ≠ [])
    (hfilt : db.search_by_filters f.category f.problem f.speed_min f.speed_max
      f.irc_code (max_results * 2) = [])
    (hnorm : ∀ r ∈ db.text_search query (max_results * 2),
      ∃ nr, normalize_s_no r = .ok nr) :
    ∃ normalized,
      normalize_all (db.text_search query (max_results * 2)) = .ok normalized ∧
      StructuredQueryStrategy.search db query (some f) max_results =
        normalized.map (resultOfRow query (some f)) ∧
      StructuredQueryStrategy.search db query (some f) max_results ≠ [] := by
  obtain ⟨l2, hl2, hlen⟩ := normalize_all_ok _ hnorm
  have hie : (db.text_search query (max_results * 2)).isEmpty = false := by
    cases hl : db.text_search query (max_results * 2) with
    | nil => exact absurd hl htext
    | cons a l => rfl
  have hsearch : StructuredQueryStrategy.search db query (some f) max_results =
      l2.map (resultOfRow query (some f)) := by
    simp only [StructuredQueryStrategy.search, hact, hfilt, hie, if_true,
      List.isEmpty_nil, Bool.not_true, Bool.false_eq_true, if_false]
    rw [hl2]
  refine ⟨l2, hl2, hsearch, ?_⟩
  rw [hsearch]
  intro hcon
  have : l2 = [] := List.map_eq_nil_iff.mp hcon
  rw [this] at hlen
  exact htext (List.length_eq_zero.mp hlen.symm)

/-- A text-search row whose `"S. No."` value does not parse as an integer. -/
def rowBadSeq : Row :=
  { sNoSpaced := some "N/A", id := some "int_9", problem := some "Faded",
    category := some "Road Sign", type := some "STOP Sign",
    data := "Faded STOP sign guidance" }

/-- Store in which the text search matches one (malformed) row and the
filtered search matches nothing. -/
def dbStarve : DatabaseService :=
  { text_search := fun _ _ => [rowBadSeq],
    search_by_filters := fun _ _ _ _ _ _ => [],
    get_all := fun _ => [] }

/-- C2 counterexample to the claim as stated: the filtered search returns zero
rows and the text search returns one row, yet the strategy returns the empty
list, because the row's malformed `"S. No."` value makes the bare `int(...)`
conversion raise and the outer handler discards everything. -/
theorem c2_counterexample :
    dbStarve.text_search "faded stop sign" 10 ≠ [] ∧
    dbStarve.search_by_filters (some ["Road Sign"]) none none none none 10 = [] ∧
    Filters.anyActive { category := some ["Road Sign"] } = true ∧
    StructuredQueryStrategy.search dbStarve "faded stop sign"
      (some { category := some ["Road Sign"] }) 5 = [] := by
  refine ⟨by decide, rfl, by decide, rfl⟩

/-- One well-formed text-search row (its sequence number is already under the
`s_no` key). -/
def rowGoodSeq : Row :=
  { s_no := some 3, id := some "int_3", problem := some "Faded",
    category := some "Road Sign", type := some "STOP Sign",
    data := "Faded STOP sign guidance" }

/-- Store for the C2 witness: one well-formed text-search match, no filtered
matches. -/
def dbStarveGood : DatabaseService :=
  { text_search := fun _ _ => [rowGoodSeq],
    search_by_filters := fun _ _ _ _ _ _ => [],
    get_all := fun _ => [] }

/-- Witness instantiating the amended C2 theorem at a concrete store. -/
theorem c2_witness :
    StructuredQueryStrategy.search dbStarveGood "faded stop sign"
      (some { category := some ["Road Sign"] }) 5 ≠ [] := by
  obtain ⟨l2, -, -, hne⟩ :=
    c2_filter_never_starves dbStarveGood "faded stop sign"
      { category := some ["Road Sign"] } 5 (by decide) (by decide) rfl
      (by intro r hr
          have h : r = rowGoodSeq := List.mem_singleton.mp hr
          subst h
          exact ⟨rowGoodSeq, rfl⟩)
  exact hne

/-- A row carrying a malformed sequence number under the `"S. No."` key. -/
def rowMalformedSeq : Row :=
  { sNoSpaced := some "abc", id := some "int_7", problem := some "Damaged",
    category := some "Road Sign", type := some "Give Way Sign", data := "d7" }

/-- A well-formed row (numeric sequence number under the `"S.No."` key). -/
def rowWellFormed : Row :=
  { sNoCompact := some "8", id := some "int_8", problem := some "Missing",
    category := some "Road Marking", type := some "Zebra Crossing", data := "d8" }

/-- Store whose text search returns one malformed and one well-formed row. -/
def dbMixedRows : DatabaseService :=
  { text_search := fun _ _ => [rowMalformedSeq, rowWellFormed],
    search_by_filters := fun _ _ _ _ _ _ => [],
    get_all := fun _ => [] }

/-- Store whose text search returns only the well-formed row. -/
def dbGoodRow : DatabaseService :=
  { text_search := fun _ _ => [rowWellFormed],
    search_by_filters := fun _ _ _ _ _ _ => [],
    get_all := fun _ => [] }

/-- A row with no sequence-number key at all and a non-numeric id suffix. -/
def rowAbsentSeq : Row :=
  { id := some "int_xyz", problem := some "Spacing Issue",
    category := some "Road Sign", type := some "Chevron", data := "d9" }

/-- C4: evaluation at the failing input.  A batch holding one row whose
`"S. No."` value is non-numeric makes the whole search return `[]` (the bare
`int(...)` on line 60 raises and the outer handler discards every row), while
the same well-formed companion row alone yields one result; the
coerce-to-zero tolerance exists only on the absent-key path (third
conjunct). -/
theorem c4_malformed_seq_discards_batch :
    StructuredQueryStrategy.search dbMixedRows "damaged road sign" none 5 = [] ∧
    (StructuredQueryStrategy.search dbGoodRow "damaged road sign" none 5).length = 1 ∧
    normalize_s_no rowAbsentSeq = .ok { rowAbsentSeq with s_no := some 0 } := by
  refine ⟨rfl, rfl, rfl⟩

/-- C5 counterexample to the claim as stated: the caller supplied the filter
key `category` with the (empty, hence Python-falsy) value `[]`, and the
entity-derived category overwrote it; caller-supplied filters therefore do
not always take precedence. -/
theorem c5_counterexample :
    (({ category := some [] } : Filters)).category = some [] ∧
    (merge_filters { category := some [] }
      { category := some "Road Marking" }).category = some ["Road Marking"] := by
  exact ⟨rfl, rfl⟩

/-- C5 (amended): the merge fills only filter fields whose caller value is
Python-falsy (unset, `None`, empty list, or zero): a truthy caller-supplied
category or problem is never overwritten, truthy speed bounds are never
overwritten, the irc_code field is never touched, and an extracted speed of
65 with both speed bounds falsy expands to the window
speed_min = 45, speed_max = 85. -/
theorem c5_merge_precedence (f : Filters) (e : ExtractedEntities) :
    (truthyList f.category = true → (merge_filters f e).category = f.category) ∧
    (truthyList f.problem = true → (merge_filters f e).problem = f.problem) ∧
    (truthyInt f.speed_min = true → (merge_filters f e).speed_min = f.speed_min) ∧
    (truthyInt f.speed_max = true → (merge_filters f e).speed_max = f.speed_max) ∧
    (merge_filters f e).irc_code = f.irc_code ∧
    (e.speed = some 65 → truthyInt f.speed_min = false → truthyInt f.speed_max = false →
      (merge_filters f e).speed_min = some 45 ∧ (merge_filters f e).speed_max = some 85) := by
  obtain ⟨fc, fp, fmin, fmax, firc⟩ := f
  have h65 : truthyInt (some 65) = true := by decide
  refine ⟨?_, ?_, ?_, ?_, ?_, ?_⟩
  · simp only [merge_filters]; split_ifs <;> simp_all
  · simp only [merge_filters]; split_ifs <;> simp_all
  · simp only [merge_filters]; split_ifs <;> simp_all
  · simp only [merge_filters]; split_ifs <;> simp_all
  · simp only [merge_filters]; split_ifs <;> simp_all
  · intro hs hmin hmax
    simp [merge_filters, hs, h65, hmin, hmax]
    split_ifs <;> simp_all

/-- Caller filters for the C5 witness: truthy category and problem lists. -/
def callerFilters : Filters :=
  { category := some ["Road Sign"], problem := some ["Faded"] }

/-- Entity bag for the C5 witness: conflicting category and a detected speed
of 65 km/h. -/
def entityBag : ExtractedEntities :=
  { problems := some ["Missing"], category := some "Road Marking", speed := some 65 }

/-- Witness instantiating the amended C5 theorem: the truthy caller category
and problem survive the merge, and speed 65 expands to the 45..85 window. -/
theorem c5_witness :
    (merge_filters callerFilters entityBag).category = some ["Road Sign"] ∧
    (merge_filters callerFilters entityBag).problem = some ["Faded"] ∧
    (merge_filters callerFilters entityBag).speed_min = some 45 ∧
    (merge_filters callerFilters entityBag).speed_max = some 85 := by
  have h := c5_merge_precedence callerFilters entityBag
  have hs := h.2.2.2.2.2 rfl (by decide) (by decide)
  exact ⟨h.1 (by decide), h.2.1 (by decide), hs.1, hs.2⟩

/-- C6: a cache hit short-circuits: the stored response is returned unmodified
and no entity extraction, no strategy search, no synthesis call and no cache
write happen for the request. -/
theorem c6_cache_hit_short_circuit (env : OrchestratorEnv) (request : SearchRequest)
    (cached : SearchResponse) :
    QueryOrchestrator.process_query env (some cached) request = (cached, ⟨0, 0, 0, 0⟩) :=
  rfl

/-- C1: on the processing path (cache miss) the orchestrator applies the
ranker's three passes to the strategy's results in the exact order
apply_boost, deduplicate, rank_by_confidence, then truncates, so the
response's results list never exceeds the request's max_results. -/
theorem c1_rank_order_and_truncation (env : OrchestratorEnv) (request : SearchRequest) :
    (QueryOrchestrator.process_query env none request).1.results =
      convert_to_recommendations
        ((ResultRanker.rank_by_confidence
          (ResultRanker.deduplicate
            (ResultRanker.apply_boost
              ((QueryOrchestrator.select_strategy env request.strategy).search
                request.query
                (merge_filters (request.filters.getD {}) (env.extract request.query))
                (request.max_results * 2))
              request.query))).take request.max_results) ∧
    (QueryOrchestrator.process_query env none request).1.results.length ≤
      request.max_results := by
  refine ⟨rfl, ?_⟩
  show (convert_to_recommendations _).length ≤ _
  rw [convert_to_recommendations, List.length_map]
  exact List.length_take_le _ _

/-- C7: with an empty ranked list the synthesis step returns the fixed
apologetic message and does not invoke the synthesis capability; with a
non-empty list it invokes it with exactly the top three results'
interventions as context. -/
theorem c7_synthesis_guard
    (synthesize : String → List Intervention → ExtractedEntities → String)
    (query : String) (entities : ExtractedEntities)
    (results : List InterventionResult) :
    (results = [] →
      generate_synthesis synthesize query results entities = (apologeticSynthesis, none)) ∧
    (results ≠ [] →
      generate_synthesis synthesize query results entities =
        (synthesize query ((results.take 3).map (fun r => r.intervention)) entities,
          some ((results.take 3).map (fun r => r.intervention)))) := by
  constructor
  · rintro rfl
    rfl
  · intro h
    have hie : results.isEmpty = false := by
      cases results with
      | nil => exact absurd rfl h
      | cons a l => rfl
    simp [generate_synthesis, hie]

/-- Synthesis capability used by the C7 witness. -/
def synthCap : String → List Intervention → ExtractedEntities → String :=
  fun query _ _ => query

/-- A concrete scored candidate for the C7 witness. -/
def resultFixture : InterventionResult :=
  { intervention := { id := "int_1", problem := "Faded", category := "Road Sign" },
    confidence := 0.8, relevance_score := 0.8 }

/-- Witness instantiating C7 on both branches: the empty list and a singleton
list. -/
theorem c7_witness :
    generate_synthesis synthCap "query" [] {} = (apologeticSynthesis, none) ∧
    generate_synthesis synthCap "query" [resultFixture] {} =
      (synthCap "query" [resultFixture.intervention] {},
        some [resultFixture.intervention]) := by
  have h1 := (c7_synthesis_guard synthCap "query" {} []).1 rfl
  have h2 := (c7_synthesis_guard synthCap "query" {} [resultFixture]).2 (by simp)
  exact ⟨h1, by simpa using h2⟩

/-- C8: entity extraction is total and absorbs failure: a provider error, or a
provider text whose fence-stripped content fails to parse as JSON, yields the
all-empty entity bag instead of an exception. -/
theorem c8_extraction_absorbs_failure
    (parse_json : String → Option ExtractedEntities) (outcome : ProviderOutcome) :
    (outcome = .error → GeminiService.extract_entities parse_json outcome = {}) ∧
    (∀ raw, outcome = .ok raw →
      parse_json (strip_code_fence raw.trim) = none →
      GeminiService.extract_entities parse_json outcome = {}) := by
  constructor
  · rintro rfl
    rfl
  · rintro raw rfl hp
    simp [GeminiService.extract_entities, hp]

/-- A JSON-decode step that always fails, for the C8 witness. -/
def parseAlwaysFails : String → Option ExtractedEntities :=
  fun _ => none

/-- Witness instantiating C8 on both failure branches: a provider error and a
fenced non-JSON provider text. -/
theorem c8_witness :
    GeminiService.extract_entities parseAlwaysFails .error = {} ∧
    GeminiService.extract_entities parseAlwaysFails (.ok "```json not a json object") = {} := by
  have h1 := (c8_extraction_absorbs_failure parseAlwaysFails .error).1 rfl
  have h2 := (c8_extraction_absorbs_failure parseAlwaysFails
    (.ok "```json not a json object")).2 "```json not a json object" rfl rfl
  exact ⟨h1, h2⟩

theorem step_no_reset (s : TokenState) (c : GeminiCall)
    (hc : c ≠ GeminiCall.reset_token_counter) :
    GeminiService.step s c =
      { total_input_tokens := s.total_input_tokens + (call_usage c).1,
        total_output_tokens := s.total_output_tokens + (call_usage c).2 } := by
  cases c with
  | extract_entities u => cases u with
    | none => simp [GeminiService.step, track_usage, call_usage]
    | some p => cases p; simp [GeminiService.step, track_usage, call_usage]
  | synthesize_recommendation u => cases u with
    | none => simp [GeminiService.step, track_usage, call_usage]
    | some p => cases p; simp [GeminiService.step, track_usage, call_usage]
  | answer_followup u => cases u with
    | none => simp [GeminiService.step, track_usage, call_usage]
    | some p => cases p; simp [GeminiService.step, track_usage, call_usage]
  | generate_embeddings => simp [GeminiService.step, call_usage]
  | embed_query => simp [GeminiService.step, call_usage]
  | get_token_usage => simp [GeminiService.step, call_usage]
  | reset_token_counter => exact absurd rfl hc

theorem run_no_reset (cs : List GeminiCall) :
    ∀ s : TokenState, GeminiCall.reset_token_counter ∉ cs →
      GeminiService.run s cs =
        { total_input_tokens := s.total_input_tokens + (total_usage cs).1,
          total_output_tokens := s.total_output_tokens + (total_usage cs).2 } := by
  induction cs with
  | nil => intro s _; simp [GeminiService.run, total_usage]
  | cons c rest ih =>
    intro s h
    have hc : c ≠ GeminiCall.reset_token_counter := by
      intro hh
      exact h (hh ▸ List.mem_cons_self _ _)
    have hrest : GeminiCall.reset_token_counter ∉ rest := by
      intro hh
      exact h (List.mem_cons_of_mem _ hh)
    rw [GeminiService.run, step_no_reset s c hc, ih _ hrest]
    simp [total_usage, Nat.add_assoc]

/-- C9: across every call sequence the process can make (the repository
contains no call site of `reset_token_counter`, so no such sequence mentions
it), the token counters accumulate monotonically — the final totals are the
initial totals plus the summed per-call usage, hence never smaller — and
`get_token_usage` snapshots exactly those accumulated totals. -/
theorem c9_token_counters_monotonic (s : TokenState) (cs : List GeminiCall)
    (h : GeminiCall.reset_token_counter ∉ cs) :
    s.total_input_tokens ≤ (GeminiService.run s cs).total_input_tokens ∧
    s.total_output_tokens ≤ (GeminiService.run s cs).total_output_tokens ∧
    GeminiService.get_token_usage (GeminiService.run s cs) =
      (s.total_input_tokens + (total_usage cs).1,
        s.total_output_tokens + (total_usage cs).2) := by
  rw [run_no_reset cs s h]
  exact ⟨Nat.le_add_right _ _, Nat.le_add_right _ _, rfl⟩

/-- A call sequence of the shape one orchestrated request produces. -/
def callSeq : List GeminiCall :=
  [GeminiCall.extract_entities (some (10, 5)),
   GeminiCall.synthesize_recommendation (some (7, 3)),
   GeminiCall.get_token_usage]

/-- Witness instantiating C9 at a concrete state and call sequence. -/
theorem c9_witness :
    3 ≤ (GeminiService.run ⟨3, 4⟩ callSeq).total_input_tokens ∧
    GeminiService.get_token_usage (GeminiService.run ⟨3, 4⟩ callSeq) = (20, 12) := by
  have h := c9_token_counters_monotonic ⟨3, 4⟩ callSeq (by decide)
  refine ⟨h.1, ?_⟩
  have h3 := h.2.2
  simpa [callSeq, total_usage, call_usage] using h3

/-- Store for the C10 witness: a single well-formed text-search match. -/
def dbSingleRow : DatabaseService :=
  { text_search := fun _ _ => [rowGoodSeq],
    search_by_filters := fun _ _ _ _ _ _ => [],
    get_all := fun _ => [] }

/-- Witness instantiating C10 at a concrete store and result. -/
theorem c10_witness :
    (0.5 : ℚ) ≤ (resultOfRow "faded stop sign" none rowGoodSeq).confidence := by
  refine c10_confidence_lower_bound dbSingleRow "faded stop sign" none 2 _ ?_
  have hs : StructuredQueryStrategy.search dbSingleRow "faded stop sign" none 2 =
      [resultOfRow "faded stop sign" none rowGoodSeq] := rfl
  rw [hs]
  exact List.mem_singleton.mpr rfl
